import Mathlib

/-!
Verification of the ChatBot backend's session/message store, input
sanitization, option validation, conversation-service orchestration and
per-session rate limiter, as a shallow embedding of the JavaScript sources
(`src/models/chatModel.js`, `src/services/chatService.js`, the sanitize
utilities, and the rate-limit middleware).

Conventions of the embedding:
* JavaScript strings are `List Char` (`JSString`) where character-level
  operations matter (trim, control-character stripping, HTML escaping),
  and Lean `String` elsewhere.
* A JavaScript `Map` is an association list with in-place update
  (`mapSet`), matching `Map.set`'s behaviour of replacing the value of an
  existing key while keeping its position, and appending fresh keys.
* Mutation is explicit state passing: every store operation takes the
  store and returns the result together with the new store.
* Clock reads (`Date.now()` / `new Date()`) and generated message ids are
  environment effects; they are passed in as explicit `Nat` parameters.
* The network call to the LLM provider is an oracle parameter of type
  `Except String (Option String)`: either a thrown error, or the value of
  `response.choices[0]?.message?.content` (possibly null/absent).
* Fallible code returns values (`Except`, result records); a JavaScript
  `throw` that is caught inside the very function that surrounds it
  (`processMessage`'s try/catch) is embedded as the corresponding branch.
* Numbers: timestamps, counters and ids are `Nat`; token limits are
  `Int`; temperatures are `Rat` (the temperatures compared by the code,
  0, 0.7 and the bounds 0 and 2, are all exact in `Rat`, so no floating
  point behaviour is involved in the claims).
-/

namespace ChatBot

/-! ## JavaScript strings and the sanitize utilities -/

/-- JavaScript strings, seen as lists of characters. -/
abbrev JSString := List Char

/-- The characters removed from both ends by JavaScript `String.prototype.trim`:
tab through carriage return, space, NBSP, the Unicode space separators,
line/paragraph separators and the BOM. -/
def jsWhitespace (c : Char) : Bool :=
  decide ((9 ≤ c.toNat ∧ c.toNat ≤ 13) ∨ c.toNat = 32 ∨ c.toNat = 160 ∨
    c.toNat = 0x1680 ∨ (0x2000 ≤ c.toNat ∧ c.toNat ≤ 0x200A) ∨ c.toNat = 0x2028 ∨
    c.toNat = 0x2029 ∨ c.toNat = 0x202F ∨ c.toNat = 0x205F ∨ c.toNat = 0x3000 ∨
    c.toNat = 0xFEFF)

/-- The character class `[\x00-\x1F\x7F]` stripped by `sanitizeString`. -/
def isControlChar (c : Char) : Bool :=
  decide (c.toNat ≤ 31 ∨ c.toNat = 127)

/-- JavaScript `input.trim()`: drop `jsWhitespace` characters from the front,
then from the back (`List.rdropWhile` drops from the right). -/
def jsTrim (l : JSString) : JSString :=
  (l.dropWhile jsWhitespace).rdropWhile jsWhitespace

/-- JavaScript `trim` on a whole `String` (used for `content.trim()` in `callOpenAI`). -/
def jsTrimString (s : String) : String :=
  String.mk (jsTrim s.data)

/-- The control-character removal `.replace(/[\x00-\x1F\x7F]/g, ...)` from `sanitizeString`. -/
def stripControl (l : JSString) : JSString :=
  l.filter (fun c => !(isControlChar c))

/-- JavaScript `str.replace(/c/g, r)` for a single-character pattern and a
replacement string containing no `$` patterns: each occurrence of `c` is
replaced by `r`, scanning left to right without rescanning replacements. -/
def replaceCharAll (l : JSString) (c : Char) (r : JSString) : JSString :=
  match l with
  | [] => []
  | x :: rest => (if x = c then r else [x]) ++ replaceCharAll rest c r

/-- The six HTML-dangerous characters escaped by `sanitizeString`:
`&`, `<`, `>`, `"` (U+0022), `'` (U+0027), `/`. -/
def htmlSpecials : List Char :=
  ['&', '<', '>', Char.ofNat 34, Char.ofNat 39, '/']

/-- The six sequential global replacements of `sanitizeString`, in source
order: `&`→`&amp;`, `<`→`&lt;`, `>`→`&gt;`, `"`→`&quot;`, `'`→`&#x27;`,
`/`→`&#x2F;`. -/
def escapeHtml (l : JSString) : JSString :=
  replaceCharAll (replaceCharAll (replaceCharAll (replaceCharAll (replaceCharAll
    (replaceCharAll l '&' ("&amp;".toList)) '<' ("&lt;".toList)) '>' ("&gt;".toList))
    (Char.ofNat 34) ("&quot;".toList)) (Char.ofNat 39) ("&#x27;".toList)) '/' ("&#x2F;".toList)

/-- Embedding of `sanitizeString` from the sanitize utilities: trim, strip control
characters, then apply the six HTML escapes in order.  (The non-string
input guard returning `''` is outside this character-level embedding.) -/
def sanitizeString (l : JSString) : JSString :=
  escapeHtml (stripControl (jsTrim l))

/-! ## JavaScript `Map` as an association list -/

/-- JavaScript `Map.get`: first (and, for the states the store reaches, only) entry
with the given key. -/
def mapLookup {κ β : Type} [DecidableEq κ] (m : List (κ × β)) (k : κ) : Option β :=
  match m with
  | [] => none
  | p :: rest => if p.1 = k then some p.2 else mapLookup rest k

/-- JavaScript `Map.set`: replace the value of an existing key in place, else append. -/
def mapSet {κ β : Type} [DecidableEq κ] (m : List (κ × β)) (k : κ) (v : β) :
    List (κ × β) :=
  match m with
  | [] => [(k, v)]
  | p :: rest => if p.1 = k then (k, v) :: rest else p :: mapSet rest k v

/-- JavaScript `Map.delete`: drop the entry with the given key. -/
def mapDelete {κ β : Type} [DecidableEq κ] (m : List (κ × β)) (k : κ) :
    List (κ × β) :=
  m.filter (fun p => !(p.1 = k : Bool))

/-! ## Data model (`chatModel.js`) -/

/-- The `metadata` bag of a message.  The code only ever stores `{}` or
`{ error: true, originalError: <text> }`, so those two fields are modelled
explicitly. -/
structure Metadata where
  error : Bool := false
  originalError : Option String := none
deriving DecidableEq

/-- A `ChatMessage` as built by `ChatModel.createMessage`. -/
structure ChatMessage where
  id : Nat
  sessionId : String
  role : String
  content : String
  timestamp : Nat
  metadata : Metadata
deriving DecidableEq

/-- A `ChatSession`. The `context` bag is opaque key-value data. -/
structure ChatSession where
  sessionId : String
  createdAt : Nat
  lastActivity : Nat
  messages : List ChatMessage
  context : List (String × String)
deriving DecidableEq

/-- The in-memory store: the `sessions` map and the `messages` map of the
`ChatModel` class. -/
structure ChatModel where
  sessions : List (String × ChatSession)
  messages : List (Nat × ChatMessage)
deriving DecidableEq

/-- The store as constructed: two empty maps. -/
def ChatModel.empty : ChatModel := ⟨[], []⟩

/-- Embedding of `ChatModel.createOrUpdateSession`: if the session exists, refresh its
`lastActivity` and return it; otherwise create a fresh session with empty
message list.  `now` is the `new Date()` read. -/
def ChatModel.createOrUpdateSession (st : ChatModel) (sessionId : String)
    (now : Nat) (context : List (String × String)) : ChatSession × ChatModel :=
  match mapLookup st.sessions sessionId with
  | some existing =>
      let updated := { existing with lastActivity := now }
      (updated, { st with sessions := mapSet st.sessions sessionId updated })
  | none =>
      let session : ChatSession :=
        { sessionId := sessionId, createdAt := now, lastActivity := now,
          messages := [], context := context }
      (session, { st with sessions := mapSet st.sessions sessionId session })

/-- Embedding of `ChatModel.addMessageToSession`: push the message onto the session's
list and refresh `lastActivity` — but only if the session exists; for an
unknown session this silently does nothing. -/
def ChatModel.addMessageToSession (st : ChatModel) (sessionId : String)
    (message : ChatMessage) (now : Nat) : ChatModel :=
  match mapLookup st.sessions sessionId with
  | some session =>
      let updated : ChatSession :=
        { session with messages := session.messages ++ [message], lastActivity := now }
      { st with sessions := mapSet st.sessions sessionId updated }
  | none => st

/-- Embedding of `ChatModel.createMessage`: build the message record, store it in the
`messages` map, and append it to the (possibly absent) session.
`messageId` stands for `generateId()` and `timestamp` for the clock read
(the second clock read inside `addMessageToSession` is collapsed to the
same instant; no claim depends on the gap between the two). -/
def ChatModel.createMessage (st : ChatModel) (sessionId role content : String)
    (metadata : Metadata) (messageId timestamp : Nat) : ChatMessage × ChatModel :=
  let message : ChatMessage :=
    { id := messageId, sessionId := sessionId, role := role, content := content,
      timestamp := timestamp, metadata := metadata }
  let st1 : ChatModel := { st with messages := mapSet st.messages messageId message }
  (message, st1.addMessageToSession sessionId message timestamp)

/-- Embedding of `ChatModel.getSessionMessages`: unknown session gives `[]`; the limit
is applied with `limit ? messages.slice(-limit) : messages`, so a `null`
(`none`) or `0` limit — both falsy in JavaScript — returns everything,
and a positive limit returns the last `limit` messages (`slice(-limit)`,
embedded as dropping all but the last `limit` elements). -/
def ChatModel.getSessionMessages (st : ChatModel) (sessionId : String)
    (limit : Option Nat) : List ChatMessage :=
  match mapLookup st.sessions sessionId with
  | none => []
  | some session =>
      match limit with
      | none => session.messages
      | some 0 => session.messages
      | some (n + 1) => session.messages.drop (session.messages.length - (n + 1))

/-- Embedding of `ChatModel.getSession`. -/
def ChatModel.getSession (st : ChatModel) (sessionId : String) : Option ChatSession :=
  mapLookup st.sessions sessionId

/-- Embedding of `ChatModel.deleteSession`: remove every owned message from the
`messages` map, then the session itself; report whether it existed. -/
def ChatModel.deleteSession (st : ChatModel) (sessionId : String) : Bool × ChatModel :=
  match mapLookup st.sessions sessionId with
  | none => (false, st)
  | some session =>
      let remaining := session.messages.foldl (fun acc m => mapDelete acc m.id) st.messages
      (true, { sessions := mapDelete st.sessions sessionId, messages := remaining })

/-! ## Option validation (`validateOptions` in the sanitize utilities) -/

/-- Raw request options.  Non-numeric `temperature`/`maxTokens` values are
rejected by the `isNaN` guards in the source; they are embedded as absent
fields, which `validateOptions` drops the same way. -/
structure RawOptions where
  model : Option String := none
  temperature : Option Rat := none
  maxTokens : Option Int := none

/-- The sanitized options object produced by `validateOptions`: each field
present only if it passed validation. -/
structure ValidatedOptions where
  model : Option String := none
  temperature : Option Rat := none
  maxTokens : Option Int := none
deriving DecidableEq

/-- The model whitelist. -/
def allowedModels : List String := ["gpt-4o-mini", "gpt-4o", "gpt-3.5-turbo"]

/-- Embedding of `validateOptions`: keep the model only if truthy (non-empty) and
whitelisted; keep the temperature only if within `[0, 2]`; keep the token
limit only if within `(0, 4000]`.  Fields failing validation are dropped
silently. -/
def validateOptions (options : RawOptions) : ValidatedOptions :=
  { model :=
      match options.model with
      | some m => if m ≠ "" ∧ m ∈ allowedModels then some m else none
      | none => none
    temperature :=
      match options.temperature with
      | some t => if 0 ≤ t ∧ t ≤ 2 then some t else none
      | none => none
    maxTokens :=
      match options.maxTokens with
      | some n => if 0 < n ∧ n ≤ 4000 then some n else none
      | none => none }

/-! ## Conversation service (`chatService.js`) -/

/-- The service defaults read from the environment in the constructor. -/
structure ServiceConfig where
  defaultModel : String
  maxTokens : Int
  temperature : Rat
deriving DecidableEq

/-- The defaults with no environment overrides: `gpt-4o-mini`, 1000
tokens, temperature 0.7. -/
def defaultConfig : ServiceConfig :=
  { defaultModel := "gpt-4o-mini", maxTokens := 1000, temperature := 7/10 }

/-- JavaScript `a || b` for an optional string: the default is used when
the value is absent or falsy (the empty string). -/
def jsOrString (v : Option String) (d : String) : String :=
  match v with
  | some s => if s = "" then d else s
  | none => d

/-- JavaScript `a || b` for an optional rational: `0` is falsy, so it
falls back to the default. -/
def jsOrRat (v : Option Rat) (d : Rat) : Rat :=
  match v with
  | some x => if x = 0 then d else x
  | none => d

/-- JavaScript `a || b` for an optional integer: `0` is falsy. -/
def jsOrInt (v : Option Int) (d : Int) : Int :=
  match v with
  | some x => if x = 0 then d else x
  | none => d

/-- A `{role, content}` message as sent to the LLM API. -/
structure OpenAIMessage where
  role : String
  content : String
deriving DecidableEq

/-- The default system instruction text. -/
def systemPromptDefault : String :=
  "Eres un asistente útil y amigable. Responde de manera clara y concisa."

/-- The fixed system message: `process.env.SYSTEM_PROMPT || <default>`. -/
def systemMessage (envSystemPrompt : Option String) : OpenAIMessage :=
  { role := "system", content := jsOrString envSystemPrompt systemPromptDefault }

/-- Embedding of `ChatService.prepareMessagesForOpenAI`: the system message first, then
every supplied session message reduced to `{role, content}`. -/
def prepareMessagesForOpenAI (envSystemPrompt : Option String)
    (sessionMessages : List ChatMessage) : List OpenAIMessage :=
  systemMessage envSystemPrompt ::
    sessionMessages.map (fun msg => { role := msg.role, content := msg.content })

/-- The request body passed to `client.chat.completions.create`. -/
structure OpenAIRequest where
  model : String
  messages : List OpenAIMessage
  temperature : Rat
  max_tokens : Int
deriving DecidableEq

/-- The option resolution of `callOpenAI` (lines 118–128): each generation
parameter is `options.x || this.x`, i.e. JavaScript truthiness defaulting
against the service config. -/
def buildOpenAIRequest (cfg : ServiceConfig) (messages : List OpenAIMessage)
    (options : ValidatedOptions) : OpenAIRequest :=
  { model := jsOrString options.model cfg.defaultModel
    messages := messages
    temperature := jsOrRat options.temperature cfg.temperature
    max_tokens := jsOrInt options.maxTokens cfg.maxTokens }

/-- Embedding of `ChatService.callOpenAI`.  Here `clientAvailable` models `getClient()`
returning null; `apiResponse` is the oracle for the network call: a thrown
error, or `choices[0]?.message?.content` (possibly absent/null).  Empty or
missing content is converted into the thrown error
`'No se recibió respuesta de OpenAI'`; successful content is trimmed. -/
def callOpenAI (cfg : ServiceConfig) (messages : List OpenAIMessage)
    (options : ValidatedOptions) (clientAvailable : Bool)
    (apiResponse : Except String (Option String)) : Except String String :=
  if !clientAvailable then Except.error "Cliente OpenAI no disponible"
  else
    let _request := buildOpenAIRequest cfg messages options
    match apiResponse with
    | Except.error e => Except.error e
    | Except.ok none => Except.error "No se recibió respuesta de OpenAI"
    | Except.ok (some content) => Except.ok (jsTrimString content)

/-- The fixed localized apology persisted and returned on any failure
inside `processMessage`. -/
def errorApology : String :=
  "Lo siento, ocurrió un error al procesar tu mensaje. Por favor, inténtalo de nuevo."

/-- The message of the error thrown by `processMessage`'s own input
guard. -/
def requiredFieldsError : String := "sessionId y userMessage son requeridos"

/-- The return value of `ChatService.processMessage`.  On the success path
the `error` field is absent (`none`). -/
structure ProcessResult where
  success : Bool
  message : String
  sessionId : String
  messageId : Nat
  timestamp : Nat
  error : Option String := none
deriving DecidableEq

/-- Embedding of `ChatService.processMessage`: validate inputs, create-or-update the
session, persist the user message, assemble the last-10-messages context,
call the LLM, and persist the reply.  Any error — the input guard, an
unavailable client, a thrown network fault, or empty reply content — is
caught by the surrounding try/catch, which persists the fixed apology as
an assistant message tagged `{error: true, originalError: <text>}` and
returns a `success := false` result instead of throwing.  The clock/id
reads are the parameters `sessionNow`, `userMsgId`/`userMsgTime` and
`botMsgId`/`botMsgTime`. -/
def processMessage (cfg : ServiceConfig) (envSystemPrompt : Option String)
    (st : ChatModel) (sessionId userMessage : String) (options : ValidatedOptions)
    (clientAvailable : Bool) (apiResponse : Except String (Option String))
    (sessionNow userMsgId userMsgTime botMsgId botMsgTime : Nat) :
    ProcessResult × ChatModel :=
  if sessionId = "" ∨ userMessage = "" then
    let r := st.createMessage sessionId "assistant" errorApology
      { error := true, originalError := some requiredFieldsError } botMsgId botMsgTime
    ({ success := false, message := errorApology, sessionId := sessionId,
       messageId := r.1.id, timestamp := r.1.timestamp,
       error := some requiredFieldsError }, r.2)
  else
    let st1 := (st.createOrUpdateSession sessionId sessionNow []).2
    let st2 := (st1.createMessage sessionId "user" userMessage {} userMsgId userMsgTime).2
    let sessionMessages := st2.getSessionMessages sessionId (some 10)
    let messages := prepareMessagesForOpenAI envSystemPrompt sessionMessages
    match callOpenAI cfg messages options clientAvailable apiResponse with
    | Except.ok botResponse =>
        let r := st2.createMessage sessionId "assistant" botResponse {} botMsgId botMsgTime
        ({ success := true, message := botResponse, sessionId := sessionId,
           messageId := r.1.id, timestamp := r.1.timestamp, error := none }, r.2)
    | Except.error e =>
        let r := st2.createMessage sessionId "assistant" errorApology
          { error := true, originalError := some e } botMsgId botMsgTime
        ({ success := false, message := errorApology, sessionId := sessionId,
           messageId := r.1.id, timestamp := r.1.timestamp,
           error := some e }, r.2)

/-! ## Per-session rate limiter (`createSessionLimiter`) -/

/-- Per-key limiter state: the counter and the end of the current window. -/
structure SessionLimitEntry where
  count : Nat
  resetTime : Nat
deriving DecidableEq

/-- The middleware's decision: pass the request on, or answer 429 with a
retry-after hint (in whole seconds, rounded up). -/
inductive LimiterDecision where
  | allow
  | reject (retryAfter : Nat)
deriving DecidableEq

/-- One request through the middleware returned by
`createSessionLimiter(windowMs, maxRequests)`: requests without a session
id pass untouched; an unknown key starts a window with count 1; an expired
window (`now > resetTime`) restarts the same way; within the window the
request is rejected once the counter has reached the max
(`sessionData.count >= max`), with retry-after
`Math.ceil((resetTime - now) / 1000)` seconds, else the counter is
incremented and the request passes. -/
def sessionLimiterStep (windowMs maxRequests : Nat)
    (sessions : List (String × SessionLimitEntry)) (sessionId : Option String)
    (now : Nat) : LimiterDecision × List (String × SessionLimitEntry) :=
  match sessionId with
  | none => (LimiterDecision.allow, sessions)
  | some sid =>
      match mapLookup sessions sid with
      | none =>
          (LimiterDecision.allow, mapSet sessions sid { count := 1, resetTime := now + windowMs })
      | some sessionData =>
          if sessionData.resetTime < now then
            (LimiterDecision.allow, mapSet sessions sid { count := 1, resetTime := now + windowMs })
          else if maxRequests ≤ sessionData.count then
            (LimiterDecision.reject ((sessionData.resetTime - now + 999) / 1000), sessions)
          else
            (LimiterDecision.allow,
             mapSet sessions sid { sessionData with count := sessionData.count + 1 })

/-! ## Reachable store states -/

/-- Store states reachable through the store's public mutating operations
from the freshly constructed store.  (`ChatService.processMessage` only
mutates the store through `createOrUpdateSession` and `createMessage`, so
every state the running service produces is covered.) -/
inductive Reachable : ChatModel → Prop where
  | empty : Reachable ChatModel.empty
  | createOrUpdate (st : ChatModel) (sid : String) (now : Nat)
      (ctx : List (String × String)) :
      Reachable st → Reachable (st.createOrUpdateSession sid now ctx).2
  | create (st : ChatModel) (sid role content : String) (meta : Metadata)
      (mid t : Nat) :
      Reachable st → Reachable (st.createMessage sid role content meta mid t).2
  | delete (st : ChatModel) (sid : String) :
      Reachable st → Reachable (st.deleteSession sid).2

/-- Well-formedness of the session map: keys are distinct, each session
records its own key as `sessionId`, and every message stored inside a
session carries that session's id. -/
def StoreWF (st : ChatModel) : Prop :=
  (st.sessions.map Prod.fst).Nodup ∧
  ∀ p ∈ st.sessions, p.2.sessionId = p.1 ∧ ∀ m ∈ p.2.messages, m.sessionId = p.1

/-- Concrete input for the sanitizer idempotence counterexample: `a`,
space, then the control character U+0001 — no HTML-special characters. -/
def c8Input : JSString := ['a', ' ', Char.ofNat 1]

/-- A concrete session with three stored messages, for witnesses. -/
def sampleSession : ChatSession :=
  { sessionId := "s1", createdAt := 0, lastActivity := 3,
    messages :=
      [ { id := 1, sessionId := "s1", role := "user", content := "uno",
          timestamp := 1, metadata := {} },
        { id := 2, sessionId := "s1", role := "assistant", content := "dos",
          timestamp := 2, metadata := {} },
        { id := 3, sessionId := "s1", role := "user", content := "tres",
          timestamp := 3, metadata := {} } ],
    context := [] }

/-- A concrete store holding `sampleSession`, for witnesses. -/
def sampleStore : ChatModel := { sessions := [("s1", sampleSession)], messages := [] }

/-- A concrete reachable store (create the session, then one message),
for the ownership witness. -/
def reachableStore : ChatModel :=
  ((ChatModel.empty.createOrUpdateSession "s1" 0 []).2.createMessage
    "s1" "user" "hola" {} 1 2).2

/-! ## Association-list map lemmas -/

theorem mapLookup_mapSet_self {κ β : Type} [DecidableEq κ] (m : List (κ × β)) (k : κ) (v : β) :
    mapLookup (mapSet m k v) k = some v := by
  induction m with
  | nil => simp [mapSet, mapLookup]
  | cons p rest ih =>
      by_cases h : p.1 = k
      · simp [mapSet, mapLookup, h]
      · simp [mapSet, mapLookup, h, ih]

theorem mapLookup_mapSet_ne {κ β : Type} [DecidableEq κ] (m : List (κ × β)) (k k2 : κ) (v : β)
    (hne : k2 ≠ k) : mapLookup (mapSet m k v) k2 = mapLookup m k2 := by
  induction m with
  | nil => simp [mapSet, mapLookup, Ne.symm hne]
  | cons p rest ih =>
      by_cases h : p.1 = k
      · simp [mapSet, mapLookup, h, Ne.symm hne]
      · simp [mapSet, mapLookup, h, ih]

theorem mapLookup_eq_none_iff {κ β : Type} [DecidableEq κ] (m : List (κ × β)) (k : κ) :
    mapLookup m k = none ↔ ∀ p ∈ m, p.1 ≠ k := by
  induction m with
  | nil => simp [mapLookup]
  | cons p rest ih =>
      by_cases h : p.1 = k
      · simp [mapLookup, h]
      · simp [mapLookup, h, ih]

theorem mapLookup_mem {κ β : Type} [DecidableEq κ] {m : List (κ × β)} {k : κ} {v : β}
    (h : mapLookup m k = some v) : (k, v) ∈ m := by
  induction m with
  | nil => simp [mapLookup] at h
  | cons p rest ih =>
      obtain ⟨a, b⟩ := p
      by_cases hp : a = k
      · simp only [mapLookup, if_pos hp] at h
        have hb : b = v := Option.some.inj h
        subst hp
        subst hb
        exact List.mem_cons_self _ _
      · simp only [mapLookup, if_neg hp] at h
        exact List.mem_cons_of_mem _ (ih h)

theorem mem_mapSet {κ β : Type} [DecidableEq κ] {m : List (κ × β)} {k : κ} {v : β}
    {p : κ × β} (h : p ∈ mapSet m k v) : p = (k, v) ∨ p ∈ m := by
  induction m with
  | nil => simpa [mapSet] using h
  | cons q rest ih =>
      by_cases hq : q.1 = k
      · simp [mapSet, hq] at h
        rcases h with h | h
        · exact Or.inl h
        · exact Or.inr (List.mem_cons_of_mem _ h)
      · simp [mapSet, hq] at h
        rcases h with h | h
        · exact Or.inr (by simp [h])
        · rcases ih h with h2 | h2
          · exact Or.inl h2
          · exact Or.inr (List.mem_cons_of_mem _ h2)

theorem mapSet_keys_sub {κ β : Type} [DecidableEq κ] (m : List (κ × β)) (k : κ) (v : β) :
    ∀ x ∈ (mapSet m k v).map Prod.fst, x = k ∨ x ∈ m.map Prod.fst := by
  intro x hx
  rcases List.mem_map.mp hx with ⟨p, hp, hpx⟩
  rcases mem_mapSet hp with h | h
  · left
    rw [← hpx, h]
  · right
    exact hpx ▸ List.mem_map_of_mem _ h

theorem nodup_keys_mapSet {κ β : Type} [DecidableEq κ] (m : List (κ × β)) (k : κ) (v : β)
    (h : (m.map Prod.fst).Nodup) : ((mapSet m k v).map Prod.fst).Nodup := by
  induction m with
  | nil => simp [mapSet]
  | cons p rest ih =>
      simp only [List.map_cons, List.nodup_cons] at h
      by_cases hp : p.1 = k
      · have hset : mapSet (p :: rest) k v = (k, v) :: rest := by
          simp [mapSet, hp]
        rw [hset, List.map_cons, List.nodup_cons]
        exact ⟨hp ▸ h.1, h.2⟩
      · have hset : mapSet (p :: rest) k v = p :: mapSet rest k v := by
          simp [mapSet, hp]
        rw [hset, List.map_cons, List.nodup_cons]
        refine ⟨fun hmem => ?_, ih h.2⟩
        rcases mapSet_keys_sub rest k v _ hmem with h2 | h2
        · exact hp h2
        · exact h.1 h2

theorem eq_of_mem_nodup_keys {κ β : Type} [DecidableEq κ] {m : List (κ × β)}
    {p q : κ × β} (h : (m.map Prod.fst).Nodup) (hp : p ∈ m) (hq : q ∈ m)
    (hk : p.1 = q.1) : p = q := by
  induction m with
  | nil => simp at hp
  | cons a rest ih =>
      simp only [List.map_cons, List.nodup_cons] at h
      rcases List.mem_cons.mp hp with hp1 | hp1 <;> rcases List.mem_cons.mp hq with hq1 | hq1
      · rw [hp1, hq1]
      · exfalso
        apply h.1
        have hin : q.1 ∈ List.map Prod.fst rest := List.mem_map_of_mem Prod.fst hq1
        rw [← hk, hp1] at hin
        exact hin
      · exfalso
        apply h.1
        have hin : p.1 ∈ List.map Prod.fst rest := List.mem_map_of_mem Prod.fst hp1
        rw [hk, hq1] at hin
        exact hin
      · exact ih h.2 hp1 hq1

/-! ## Preservation of store well-formedness -/

theorem storeWF_empty : StoreWF ChatModel.empty := by
  constructor <;> simp [ChatModel.empty]

theorem storeWF_createOrUpdateSession (st : ChatModel) (sid : String) (now : Nat)
    (ctx : List (String × String)) (h : StoreWF st) :
    StoreWF (st.createOrUpdateSession sid now ctx).2 := by
  obtain ⟨hnd, hmem⟩ := h
  unfold ChatModel.createOrUpdateSession
  cases hlk : mapLookup st.sessions sid with
  | some existing =>
      obtain ⟨hsid, hmsgs⟩ := hmem _ (mapLookup_mem hlk)
      refine ⟨nodup_keys_mapSet _ _ _ hnd, ?_⟩
      intro p hp
      rcases mem_mapSet hp with hp1 | hp1
      · subst hp1
        exact ⟨hsid, hmsgs⟩
      · exact hmem _ hp1
  | none =>
      refine ⟨nodup_keys_mapSet _ _ _ hnd, ?_⟩
      intro p hp
      rcases mem_mapSet hp with hp1 | hp1
      · subst hp1
        exact ⟨rfl, by simp⟩
      · exact hmem _ hp1

theorem storeWF_addMessageToSession (st : ChatModel) (sid : String)
    (message : ChatMessage) (now : Nat) (h : StoreWF st)
    (hm : message.sessionId = sid) :
    StoreWF (st.addMessageToSession sid message now) := by
  obtain ⟨hnd, hmem⟩ := h
  unfold ChatModel.addMessageToSession
  cases hlk : mapLookup st.sessions sid with
  | some session =>
      obtain ⟨hsid, hmsgs⟩ := hmem _ (mapLookup_mem hlk)
      refine ⟨nodup_keys_mapSet _ _ _ hnd, ?_⟩
      intro p hp
      rcases mem_mapSet hp with hp1 | hp1
      · subst hp1
        refine ⟨hsid, ?_⟩
        intro m hmm
        rcases List.mem_append.mp hmm with h2 | h2
        · exact hmsgs _ h2
        · simp at h2
          rw [h2, hm]
      · exact hmem _ hp1
  | none => exact ⟨hnd, hmem⟩

theorem storeWF_createMessage (st : ChatModel) (sid role content : String)
    (meta : Metadata) (mid t : Nat) (h : StoreWF st) :
    StoreWF (st.createMessage sid role content meta mid t).2 := by
  unfold ChatModel.createMessage
  exact storeWF_addMessageToSession _ _ _ _ ⟨h.1, h.2⟩ rfl

theorem storeWF_deleteSession (st : ChatModel) (sid : String) (h : StoreWF st) :
    StoreWF (st.deleteSession sid).2 := by
  obtain ⟨hnd, hmem⟩ := h
  unfold ChatModel.deleteSession
  cases hlk : mapLookup st.sessions sid with
  | none => exact ⟨hnd, hmem⟩
  | some session =>
      refine ⟨?_, ?_⟩
      · exact List.Nodup.sublist (List.Sublist.map Prod.fst (List.filter_sublist _)) hnd
      · intro p hp
        exact hmem _ (List.mem_of_mem_filter hp)

theorem reachable_storeWF {st : ChatModel} (h : Reachable st) : StoreWF st := by
  induction h with
  | empty => exact storeWF_empty
  | createOrUpdate st sid now ctx _ ih => exact storeWF_createOrUpdateSession st sid now ctx ih
  | create st sid role content meta mid t _ ih => exact storeWF_createMessage st sid role content meta mid t ih
  | delete st sid _ ih => exact storeWF_deleteSession st sid ih

/-! ## Sanitizer lemmas -/

theorem replaceCharAll_of_not_mem (l : JSString) (c : Char) (r : JSString)
    (h : ∀ a ∈ l, a ≠ c) : replaceCharAll l c r = l := by
  induction l with
  | nil => rfl
  | cons x rest ih =>
      have hx : x ≠ c := h x (List.mem_cons_self _ _)
      simp [replaceCharAll, hx, ih (fun a ha => h a (List.mem_cons_of_mem _ ha))]

theorem stripControl_of_none (l : JSString) (h : ∀ a ∈ l, isControlChar a = false) :
    stripControl l = l :=
  List.filter_eq_self.mpr (fun a ha => by simp [h a ha])

theorem mem_of_mem_jsTrim {l : JSString} {a : Char} (h : a ∈ jsTrim l) : a ∈ l := by
  unfold jsTrim at h
  have h1 : a ∈ l.dropWhile jsWhitespace :=
    (( List.rdropWhile_prefix jsWhitespace (l.dropWhile jsWhitespace)).sublist).subset h
  exact ((List.dropWhile_suffix jsWhitespace).sublist).subset h1

theorem dropWhile_head_not_ws (l : List Char) (a : Char) (r : List Char)
    (h : l.dropWhile jsWhitespace = a :: r) : ¬ jsWhitespace a := by
  have h0 : 0 < (l.dropWhile jsWhitespace).length := by rw [h]; simp
  have hget := List.dropWhile_get_zero_not jsWhitespace l h0
  have ha : (l.dropWhile jsWhitespace).get ⟨0, h0⟩ = a := by
    simp [h]
  rwa [ha] at hget

theorem jsTrim_idem (l : JSString) : jsTrim (jsTrim l) = jsTrim l := by
  cases hr : jsTrim l with
  | nil => simp [jsTrim]
  | cons a r2 =>
      have hpre := List.rdropWhile_prefix jsWhitespace (l.dropWhile jsWhitespace)
      rw [show (l.dropWhile jsWhitespace).rdropWhile jsWhitespace = jsTrim l from rfl, hr] at hpre
      obtain ⟨t, ht⟩ := hpre
      have hna : ¬ jsWhitespace a :=
        dropWhile_head_not_ws l a (r2 ++ t) (by rw [← ht]; rfl)
      show (List.dropWhile jsWhitespace (a :: r2)).rdropWhile jsWhitespace = a :: r2
      rw [show List.dropWhile jsWhitespace (a :: r2) = a :: r2 by simp [List.dropWhile_cons, hna]]
      rw [← hr]
      show ((l.dropWhile jsWhitespace).rdropWhile jsWhitespace).rdropWhile jsWhitespace = _
      rw [List.rdropWhile_idempotent]
      rfl

theorem escapeHtml_of_no_specials (l : JSString) (h : ∀ a ∈ l, a ∉ htmlSpecials) :
    escapeHtml l = l := by
  have hs : ∀ a ∈ l, a ≠ '&' ∧ a ≠ '<' ∧ a ≠ '>' ∧ a ≠ Char.ofNat 34 ∧
      a ≠ Char.ofNat 39 ∧ a ≠ '/' := by
    intro a ha
    have hin := h a ha
    simpa [htmlSpecials] using hin
  unfold escapeHtml
  rw [replaceCharAll_of_not_mem l _ _ (fun a ha => (hs a ha).1)]
  rw [replaceCharAll_of_not_mem l _ _ (fun a ha => (hs a ha).2.1)]
  rw [replaceCharAll_of_not_mem l _ _ (fun a ha => (hs a ha).2.2.1)]
  rw [replaceCharAll_of_not_mem l _ _ (fun a ha => (hs a ha).2.2.2.1)]
  rw [replaceCharAll_of_not_mem l _ _ (fun a ha => (hs a ha).2.2.2.2.1)]
  rw [replaceCharAll_of_not_mem l _ _ (fun a ha => (hs a ha).2.2.2.2.2)]

theorem sanitizeString_of_plain (l : JSString)
    (hspec : ∀ a ∈ l, a ∉ htmlSpecials) (hctrl : ∀ a ∈ l, isControlChar a = false) :
    sanitizeString l = jsTrim l := by
  unfold sanitizeString
  rw [stripControl_of_none _ (fun a ha => hctrl a (mem_of_mem_jsTrim ha))]
  exact escapeHtml_of_no_specials _ (fun a ha => hspec a (mem_of_mem_jsTrim ha))

/-! ## Store operation lemmas -/

theorem addMessageToSession_messages (st : ChatModel) (sid : String)
    (message : ChatMessage) (now : Nat) :
    (st.addMessageToSession sid message now).messages = st.messages := by
  unfold ChatModel.addMessageToSession
  cases mapLookup st.sessions sid <;> rfl

theorem createMessage_fst (st : ChatModel) (sid role content : String)
    (meta : Metadata) (mid t : Nat) :
    (st.createMessage sid role content meta mid t).1 =
      { id := mid, sessionId := sid, role := role, content := content,
        timestamp := t, metadata := meta } := rfl

theorem createMessage_messages (st : ChatModel) (sid role content : String)
    (meta : Metadata) (mid t : Nat) :
    (st.createMessage sid role content meta mid t).2.messages =
      mapSet st.messages mid (st.createMessage sid role content meta mid t).1 := by
  unfold ChatModel.createMessage
  rw [addMessageToSession_messages]

theorem createOrUpdateSession_spec (st : ChatModel) (sid : String) (now : Nat)
    (ctx : List (String × String)) (s : ChatSession) (m : ChatModel)
    (h : st.createOrUpdateSession sid now ctx = (s, m)) :
    mapLookup m.sessions sid = some s ∧ s.lastActivity = now ∧
    (∀ s0, mapLookup st.sessions sid = some s0 → s = { s0 with lastActivity := now }) ∧
    (mapLookup st.sessions sid = none → s.messages = []) := by
  unfold ChatModel.createOrUpdateSession at h
  cases hlk : mapLookup st.sessions sid with
  | some existing =>
      rw [hlk] at h
      injection h with hs hm
      subst hs
      subst hm
      refine ⟨mapLookup_mapSet_self _ _ _, rfl, ?_, ?_⟩
      · intro s0 hs0
        injection hs0 with hs0
        rw [hs0]
      · intro hc
        exact absurd hc (by simp)
  | none =>
      rw [hlk] at h
      injection h with hs hm
      subst hs
      subst hm
      refine ⟨mapLookup_mapSet_self _ _ _, rfl, ?_, fun _ => rfl⟩
      intro s0 hs0
      simp at hs0

/-- Common shape of `processMessage` when `callOpenAI` fails: the
validation guard passes, the LLM call yields the thrown error `e` (either
a network fault or the empty-content error), and the catch block persists
and returns the apology. -/
theorem processMessage_failure_spec (cfg : ServiceConfig) (envSys : Option String)
    (st : ChatModel) (sid msg : String) (options : ValidatedOptions)
    (resp : Except String (Option String)) (sN uId uT bId bT : Nat) (e : String)
    (hsid : sid ≠ "") (hmsg : msg ≠ "")
    (hfail : resp = Except.error e ∨
      (resp = Except.ok none ∧ e = "No se recibió respuesta de OpenAI")) :
    (processMessage cfg envSys st sid msg options true resp sN uId uT bId bT).1 =
      { success := false, message := errorApology, sessionId := sid, messageId := bId,
        timestamp := bT, error := some e } ∧
    mapLookup (processMessage cfg envSys st sid msg options true resp sN uId uT bId bT).2.messages bId =
      some { id := bId, sessionId := sid, role := "assistant", content := errorApology,
             timestamp := bT, metadata := { error := true, originalError := some e } } := by
  have hne : ¬ (sid = "" ∨ msg = "") := by
    rintro (h | h)
    · exact hsid h
    · exact hmsg h
  have hcall : ∀ msgs, callOpenAI cfg msgs options true resp = Except.error e := by
    intro msgs
    rcases hfail with rfl | ⟨rfl, rfl⟩ <;> rfl
  unfold processMessage
  rw [if_neg hne]
  simp only [hcall]
  refine ⟨?_, ?_⟩
  · rw [createMessage_fst]
  · rw [createMessage_messages, createMessage_fst]
    exact mapLookup_mapSet_self _ _ _

/-! ## Claim theorems -/

/-- C8 (amended): the string sanitizer is idempotent on text free of the
six HTML-special characters and of control characters: for every string
with no `&`, `<`, `>`, `"`, `'`, `/` and no character in U+0000–U+001F or
U+007F, `sanitizeString (sanitizeString x) = sanitizeString x`.  (The
control-character exclusion is forced: stripping a control character can
expose fresh trailing/leading whitespace that only the second trim
removes.) -/
theorem sanitizeString_idem_plain (l : JSString)
    (hspec : ∀ a ∈ l, a ∉ htmlSpecials) (hctrl : ∀ a ∈ l, isControlChar a = false) :
    sanitizeString (sanitizeString l) = sanitizeString l := by
  rw [sanitizeString_of_plain l hspec hctrl]
  rw [sanitizeString_of_plain (jsTrim l)
    (fun a ha => hspec a (mem_of_mem_jsTrim ha))
    (fun a ha => hctrl a (mem_of_mem_jsTrim ha))]
  exact jsTrim_idem l

/-- C8 counterexample: the input `['a', ' ', U+0001]` contains none of the
six HTML-special characters `& < > " ' /`, yet `sanitizeString` is not
idempotent on it: the first pass yields `"a "` (the control character
shielded the trailing space from the trim), the second pass yields
`"a"`. -/
theorem sanitizeString_not_idem_c8Input :
    (∀ a ∈ c8Input, a ∉ htmlSpecials) ∧
      sanitizeString (sanitizeString c8Input) ≠ sanitizeString c8Input := by
  decide

/-- Witness for C8 (amended): `"hola"` satisfies both hypotheses and the
sanitizer is idempotent on it. -/
theorem sanitizeString_idem_plain_witness :
    (∀ a ∈ (['h', 'o', 'l', 'a'] : JSString), a ∉ htmlSpecials) ∧
    (∀ a ∈ (['h', 'o', 'l', 'a'] : JSString), isControlChar a = false) ∧
    sanitizeString (sanitizeString ['h', 'o', 'l', 'a']) =
      sanitizeString ['h', 'o', 'l', 'a'] :=
  ⟨by decide, by decide, sanitizeString_idem_plain _ (by decide) (by decide)⟩

/-- C10: for an existing session, `getSessionMessages` with `limit = 0`
returns the session's entire message sequence — `0` is falsy in
JavaScript, so the limit is treated exactly like an absent limit, not as
a request for zero messages. -/
theorem getSessionMessages_limit_zero (st : ChatModel) (sid : String) (s : ChatSession)
    (hs : mapLookup st.sessions sid = some s) :
    st.getSessionMessages sid (some 0) = s.messages ∧
      st.getSessionMessages sid (some 0) = st.getSessionMessages sid none := by
  constructor <;> simp [ChatModel.getSessionMessages, hs]

/-- Witness for C10 on the three-message sample store. -/
theorem getSessionMessages_limit_zero_witness :
    mapLookup sampleStore.sessions "s1" = some sampleSession ∧
    (sampleStore.getSessionMessages "s1" (some 0) = sampleSession.messages ∧
      sampleStore.getSessionMessages "s1" (some 0) =
        sampleStore.getSessionMessages "s1" none) :=
  ⟨by decide, getSessionMessages_limit_zero sampleStore "s1" sampleSession (by decide)⟩

/-- C6: for a session holding `k` messages and any positive `n < k`,
`getSessionMessages` with limit `n` returns exactly the last `n` messages
in their original insertion order (the session's sequence is a prefix
followed by the returned slice, and the slice has length `n`); for any
session id not in the store the call returns the empty sequence for every
limit, rather than failing. -/
theorem getSessionMessages_last_n (st : ChatModel) (sid : String) (s : ChatSession)
    (n : Nat) (hs : mapLookup st.sessions sid = some s) (hn : 0 < n)
    (hk : n < s.messages.length) :
    (∃ pre, s.messages = pre ++ st.getSessionMessages sid (some n) ∧
        (st.getSessionMessages sid (some n)).length = n) ∧
    (∀ sid2 lim, mapLookup st.sessions sid2 = none → st.getSessionMessages sid2 lim = []) := by
  constructor
  · obtain ⟨m, rfl⟩ : ∃ m, n = m + 1 := ⟨n - 1, by omega⟩
    have hunf : st.getSessionMessages sid (some (m + 1)) =
        s.messages.drop (s.messages.length - (m + 1)) := by
      simp [ChatModel.getSessionMessages, hs]
    refine ⟨s.messages.take (s.messages.length - (m + 1)), ?_, ?_⟩
    · rw [hunf, List.take_append_drop]
    · rw [hunf, List.length_drop]
      omega
  · intro sid2 lim h2
    simp [ChatModel.getSessionMessages, h2]

/-- Witness for C6: the sample store with `k = 3` and `n = 2`. -/
theorem getSessionMessages_last_n_witness :
    mapLookup sampleStore.sessions "s1" = some sampleSession ∧ 0 < 2 ∧
    2 < sampleSession.messages.length ∧
    ((∃ pre, sampleSession.messages = pre ++ sampleStore.getSessionMessages "s1" (some 2) ∧
        (sampleStore.getSessionMessages "s1" (some 2)).length = 2) ∧
     (∀ sid2 lim, mapLookup sampleStore.sessions sid2 = none →
        sampleStore.getSessionMessages sid2 lim = [])) :=
  ⟨by decide, by decide, by decide,
    getSessionMessages_last_n sampleStore "s1" sampleSession 2 (by decide) (by decide) (by decide)⟩

/-- C7: `createOrUpdateSession` is idempotent on session content: calling
it twice with the same id (at non-decreasing clock readings), the second
call returns the session that already exists after the first call, with
only `lastActivity` refreshed — its `messages` sequence is unchanged —
and `lastActivity` is non-decreasing across the two calls.  Both calls
are total functions of the store: the operation cannot fail. -/
theorem createOrUpdateSession_idem (st : ChatModel) (sid : String) (t1 t2 : Nat)
    (c1 c2 : List (String × String)) (s1 s2 : ChatSession) (m1 m2 : ChatModel)
    (ht : t1 ≤ t2)
    (h1 : st.createOrUpdateSession sid t1 c1 = (s1, m1))
    (h2 : m1.createOrUpdateSession sid t2 c2 = (s2, m2)) :
    mapLookup m1.sessions sid = some s1 ∧
    s2 = { s1 with lastActivity := t2 } ∧
    s2.messages = s1.messages ∧
    mapLookup m2.sessions sid = some s2 ∧
    s1.lastActivity = t1 ∧ s2.lastActivity = t2 ∧ s1.lastActivity ≤ s2.lastActivity := by
  obtain ⟨ha1, hb1, _, _⟩ := createOrUpdateSession_spec st sid t1 c1 s1 m1 h1
  obtain ⟨ha2, hb2, hupd2, _⟩ := createOrUpdateSession_spec m1 sid t2 c2 s2 m2 h2
  have hs2 : s2 = { s1 with lastActivity := t2 } := hupd2 s1 ha1
  exact ⟨ha1, hs2, by rw [hs2], ha2, hb1, hb2, by rw [hb1, hb2]; exact ht⟩

/-- Witness for C7: two calls on the empty store at times 1 and 2. -/
theorem createOrUpdateSession_idem_witness :
    (1 : Nat) ≤ 2 ∧
    (mapLookup (⟨[("s1", ⟨"s1", 1, 1, [], []⟩)], []⟩ : ChatModel).sessions "s1" =
        some ⟨"s1", 1, 1, [], []⟩ ∧
      (⟨"s1", 1, 2, [], []⟩ : ChatSession) =
        { (⟨"s1", 1, 1, [], []⟩ : ChatSession) with lastActivity := 2 } ∧
      (⟨"s1", 1, 2, [], []⟩ : ChatSession).messages =
        (⟨"s1", 1, 1, [], []⟩ : ChatSession).messages ∧
      mapLookup (⟨[("s1", ⟨"s1", 1, 2, [], []⟩)], []⟩ : ChatModel).sessions "s1" =
        some ⟨"s1", 1, 2, [], []⟩ ∧
      (⟨"s1", 1, 1, [], []⟩ : ChatSession).lastActivity = 1 ∧
      (⟨"s1", 1, 2, [], []⟩ : ChatSession).lastActivity = 2 ∧
      (⟨"s1", 1, 1, [], []⟩ : ChatSession).lastActivity ≤
        (⟨"s1", 1, 2, [], []⟩ : ChatSession).lastActivity) :=
  ⟨by decide,
    createOrUpdateSession_idem ChatModel.empty "s1" 1 2 [] []
      ⟨"s1", 1, 1, [], []⟩ ⟨"s1", 1, 2, [], []⟩
      ⟨[("s1", ⟨"s1", 1, 1, [], []⟩)], []⟩ ⟨[("s1", ⟨"s1", 1, 2, [], []⟩)], []⟩
      (by decide) rfl rfl⟩

/-- C4: for a session with `m` stored messages and any positive window
size `N` (the service uses `N = 10`), the list handed to the LLM call is
exactly `min m N + 1` messages long: the fixed system instruction first,
then the last `min m N` stored messages — the tail of the session's
sequence, in oldest-to-newest order — each reduced to `{role, content}`. -/
theorem prepareMessages_window (envSys : Option String) (st : ChatModel) (sid : String)
    (s : ChatSession) (N : Nat) (hs : mapLookup st.sessions sid = some s) (hN : 0 < N) :
    ∃ pre tail, s.messages = pre ++ tail ∧ tail.length = min s.messages.length N ∧
      prepareMessagesForOpenAI envSys (st.getSessionMessages sid (some N)) =
        systemMessage envSys ::
          tail.map (fun msg => { role := msg.role, content := msg.content }) ∧
      (prepareMessagesForOpenAI envSys (st.getSessionMessages sid (some N))).length =
        min s.messages.length N + 1 := by
  obtain ⟨k, rfl⟩ : ∃ k, N = k + 1 := ⟨N - 1, by omega⟩
  have hunf : st.getSessionMessages sid (some (k + 1)) =
      s.messages.drop (s.messages.length - (k + 1)) := by
    simp [ChatModel.getSessionMessages, hs]
  refine ⟨s.messages.take (s.messages.length - (k + 1)),
    s.messages.drop (s.messages.length - (k + 1)),
    (List.take_append_drop _ _).symm, ?_, ?_, ?_⟩
  · rw [List.length_drop]
    omega
  · rw [hunf]
    rfl
  · rw [hunf]
    simp only [prepareMessagesForOpenAI, List.length_cons, List.length_map, List.length_drop]
    omega

/-- Witness for C4: the sample store (`m = 3`) with the service's default
window `N = 10`. -/
theorem prepareMessages_window_witness :
    mapLookup sampleStore.sessions "s1" = some sampleSession ∧ 0 < 10 ∧
    (∃ pre tail, sampleSession.messages = pre ++ tail ∧
      tail.length = min sampleSession.messages.length 10 ∧
      prepareMessagesForOpenAI none (sampleStore.getSessionMessages "s1" (some 10)) =
        systemMessage none ::
          tail.map (fun msg => { role := msg.role, content := msg.content }) ∧
      (prepareMessagesForOpenAI none (sampleStore.getSessionMessages "s1" (some 10))).length =
        min sampleSession.messages.length 10 + 1) :=
  ⟨by decide, by decide,
    prepareMessages_window none sampleStore "s1" sampleSession 10 (by decide) (by decide)⟩

/-- C5 counterexample: calling `createMessage` on the empty store with a
session id for which no session exists stores the message in the store's
message collection, yet the store has no session at all — the message
belongs to the message sequence of zero sessions, not exactly one. -/
theorem createMessage_orphan :
    mapLookup (ChatModel.empty.createMessage "s1" "user" "hola" {} 1 0).2.messages 1 =
        some (ChatModel.empty.createMessage "s1" "user" "hola" {} 1 0).1 ∧
      (ChatModel.empty.createMessage "s1" "user" "hola" {} 1 0).2.sessions = [] := by
  constructor <;> rfl

/-- C5 (amended): in every reachable store state, a stored message belongs
to at most one session, and when it appears at all it is in the session
named by its `sessionId`: session keys are distinct, every message inside
a session carries that session's id, and the same message value cannot
occur in two different sessions.  When `createMessage` is invoked with a
sessionId for which no session exists, the message is stored in the
message collection but appended to no session's sequence. -/
theorem message_single_session_ownership (st : ChatModel) (h : Reachable st) :
    (st.sessions.map Prod.fst).Nodup ∧
    (∀ p ∈ st.sessions, p.2.sessionId = p.1 ∧ ∀ m ∈ p.2.messages, m.sessionId = p.1) ∧
    (∀ p ∈ st.sessions, ∀ q ∈ st.sessions, ∀ m ∈ p.2.messages, m ∈ q.2.messages → p = q) ∧
    (∀ (sid role content : String) (meta : Metadata) (mid t : Nat),
      mapLookup st.sessions sid = none →
        mapLookup (st.createMessage sid role content meta mid t).2.messages mid =
            some (st.createMessage sid role content meta mid t).1 ∧
          ∀ q ∈ (st.createMessage sid role content meta mid t).2.sessions,
            (st.createMessage sid role content meta mid t).1 ∉ q.2.messages) := by
  obtain ⟨hnd, hmem⟩ := reachable_storeWF h
  refine ⟨hnd, hmem, ?_, ?_⟩
  · intro p hp q hq m hmp hmq
    have e1 := (hmem p hp).2 m hmp
    have e2 := (hmem q hq).2 m hmq
    exact eq_of_mem_nodup_keys hnd hp hq (e1.symm.trans e2)
  · intro sid role content meta mid t hnone
    have hsess : (st.createMessage sid role content meta mid t).2.sessions = st.sessions := by
      unfold ChatModel.createMessage ChatModel.addMessageToSession
      simp [hnone]
    constructor
    · rw [createMessage_messages]
      exact mapLookup_mapSet_self _ _ _
    · intro q hq hin
      rw [hsess] at hq
      have hqs := (hmem q hq).2 _ hin
      rw [createMessage_fst] at hqs
      have hne := (mapLookup_eq_none_iff st.sessions sid).mp hnone q hq
      exact hne hqs.symm

/-- Witness for C5 (amended): the reachable store built by creating the
session `s1` and then one message in it. -/
theorem message_single_session_ownership_witness :
    (reachableStore.sessions.map Prod.fst).Nodup ∧
    (∀ p ∈ reachableStore.sessions, p.2.sessionId = p.1 ∧
      ∀ m ∈ p.2.messages, m.sessionId = p.1) ∧
    (∀ p ∈ reachableStore.sessions, ∀ q ∈ reachableStore.sessions,
      ∀ m ∈ p.2.messages, m ∈ q.2.messages → p = q) ∧
    (∀ (sid role content : String) (meta : Metadata) (mid t : Nat),
      mapLookup reachableStore.sessions sid = none →
        mapLookup (reachableStore.createMessage sid role content meta mid t).2.messages mid =
            some (reachableStore.createMessage sid role content meta mid t).1 ∧
          ∀ q ∈ (reachableStore.createMessage sid role content meta mid t).2.sessions,
            (reachableStore.createMessage sid role content meta mid t).1 ∉ q.2.messages) :=
  message_single_session_ownership reachableStore
    (Reachable.create _ "s1" "user" "hola" {} 1 2
      (Reachable.createOrUpdate ChatModel.empty "s1" 0 [] Reachable.empty))

/-- C1: when the LLM call inside `processMessage` fails — a thrown fault
(`resp = error e`) or empty/missing reply content (which `callOpenAI`
turns into the thrown error `'No se recibió respuesta de OpenAI'`) — the
service catches it, persists the fixed localized apology as an assistant
message whose metadata has `error = true` and carries the original error
text, and returns (instead of throwing) a result with `success = false`,
`message` equal to that same apology, the `sessionId`, the error
message's id and timestamp, and an `error` field holding the original
error message. -/
theorem processMessage_llm_failure (cfg : ServiceConfig) (envSys : Option String)
    (st : ChatModel) (sid msg : String) (options : ValidatedOptions)
    (resp : Except String (Option String)) (sN uId uT bId bT : Nat) (e : String)
    (hsid : sid ≠ "") (hmsg : msg ≠ "")
    (hfail : resp = Except.error e ∨
      (resp = Except.ok none ∧ e = "No se recibió respuesta de OpenAI")) :
    (processMessage cfg envSys st sid msg options true resp sN uId uT bId bT).1 =
      { success := false, message := errorApology, sessionId := sid, messageId := bId,
        timestamp := bT, error := some e } ∧
    mapLookup (processMessage cfg envSys st sid msg options true resp sN uId uT bId bT).2.messages bId =
      some { id := bId, sessionId := sid, role := "assistant", content := errorApology,
             timestamp := bT, metadata := { error := true, originalError := some e } } :=
  processMessage_failure_spec cfg envSys st sid msg options resp sN uId uT bId bT e
    hsid hmsg hfail

/-- Witness for C1: a concrete run on the empty store with a mocked
network fault. -/
theorem processMessage_llm_failure_witness :
    ("s1" : String) ≠ "" ∧ ("hola" : String) ≠ "" ∧
    ((processMessage defaultConfig none ChatModel.empty "s1" "hola" {} true
        (Except.error "fallo de red") 0 1 2 3 4).1 =
      { success := false, message := errorApology, sessionId := "s1", messageId := 3,
        timestamp := 4, error := some "fallo de red" } ∧
    mapLookup (processMessage defaultConfig none ChatModel.empty "s1" "hola" {} true
        (Except.error "fallo de red") 0 1 2 3 4).2.messages 3 =
      some { id := 3, sessionId := "s1", role := "assistant", content := errorApology,
             timestamp := 4, metadata := { error := true, originalError := some "fallo de red" } }) :=
  ⟨by decide, by decide,
    processMessage_llm_failure defaultConfig none ChatModel.empty "s1" "hola" {}
      (Except.error "fallo de red") 0 1 2 3 4 "fallo de red"
      (by decide) (by decide) (Or.inl rfl)⟩

/-- C3 counterexample: the claim says the value returned to the caller
never contains the original error text verbatim, but on a concrete run
with the upstream fault `"fallo de red"` the result handed back to the
caller carries exactly that text in its `error` field. -/
theorem processMessage_error_exposed :
    (processMessage defaultConfig none ChatModel.empty "s2" "hola" {} true
        (Except.error "fallo de red") 0 1 2 3 4).1.error = some "fallo de red" := by
  decide

/-- C3 (amended): when the upstream LLM call fails, the original error
text is retained in the persisted message's metadata, in logs, and in the
`error` field of the returned result; the user-facing `message` field of
the result never contains it — it is always the fixed apology text. -/
theorem llm_error_text_retention (cfg : ServiceConfig) (envSys : Option String)
    (st : ChatModel) (sid msg : String) (options : ValidatedOptions)
    (resp : Except String (Option String)) (sN uId uT bId bT : Nat) (e : String)
    (hsid : sid ≠ "") (hmsg : msg ≠ "")
    (hfail : resp = Except.error e ∨
      (resp = Except.ok none ∧ e = "No se recibió respuesta de OpenAI")) :
    (processMessage cfg envSys st sid msg options true resp sN uId uT bId bT).1.message =
      errorApology ∧
    (processMessage cfg envSys st sid msg options true resp sN uId uT bId bT).1.error = some e ∧
    (mapLookup (processMessage cfg envSys st sid msg options true resp sN uId uT bId bT).2.messages bId).map
        ChatMessage.metadata = some { error := true, originalError := some e } := by
  obtain ⟨h1, h2⟩ := processMessage_failure_spec cfg envSys st sid msg options resp
    sN uId uT bId bT e hsid hmsg hfail
  refine ⟨by rw [h1], by rw [h1], by rw [h2]; rfl⟩

/-- Witness for C3 (amended): a concrete run with the mocked fault
`"timeout"`. -/
theorem llm_error_text_retention_witness :
    ("s1" : String) ≠ "" ∧ ("hola" : String) ≠ "" ∧
    ((processMessage defaultConfig none ChatModel.empty "s1" "hola" {} true
        (Except.error "timeout") 9 1 2 3 4).1.message = errorApology ∧
    (processMessage defaultConfig none ChatModel.empty "s1" "hola" {} true
        (Except.error "timeout") 9 1 2 3 4).1.error = some "timeout" ∧
    (mapLookup (processMessage defaultConfig none ChatModel.empty "s1" "hola" {} true
        (Except.error "timeout") 9 1 2 3 4).2.messages 3).map ChatMessage.metadata =
      some { error := true, originalError := some "timeout" }) :=
  ⟨by decide, by decide,
    llm_error_text_retention defaultConfig none ChatModel.empty "s1" "hola" {}
      (Except.error "timeout") 9 1 2 3 4 "timeout" (by decide) (by decide) (Or.inl rfl)⟩

/-- C2: the claim that every option accepted by `validateOptions` is the
value used in the LLM call fails for temperature 0: `validateOptions`
deliberately accepts a request temperature of 0 (it is inside `[0, 2]`),
but `callOpenAI` resolves options with JavaScript `||`
(`options.temperature || this.temperature`), for which 0 is falsy, so the
request is sent with the service default 0.7 instead of the validated 0. -/
theorem validated_temperature_zero_dropped :
    (validateOptions { temperature := some 0 }).temperature = some 0 ∧
    (buildOpenAIRequest defaultConfig [] (validateOptions { temperature := some 0 })).temperature =
      defaultConfig.temperature ∧
    defaultConfig.temperature ≠ 0 := by
  refine ⟨by norm_num [validateOptions], ?_, by norm_num [defaultConfig]⟩
  norm_num [validateOptions, buildOpenAIRequest, jsOrRat, defaultConfig]

/-- C9: the per-session fixed-window rate limiter with `max = 2` per
1000 ms window: three requests for key `"k"` inside one window decide
allow, allow, reject (the rejection carrying the retry-after hint
`ceil((resetTime - now) / 1000)` seconds), and a request after the window
has elapsed decides allow again.  In general, a request with a session id
is rejected exactly when its key has an entry whose window has not
expired (`now ≤ resetTime`) and whose counter has already reached the
configured max. -/
theorem sessionLimiter_max2_scenario (t0 t1 t2 t3 : Nat)
    (d1 d2 d3 d4 : LimiterDecision)
    (s1 s2 s3 : List (String × SessionLimitEntry))
    (h1w : t1 ≤ t0 + 1000) (h2w : t2 ≤ t0 + 1000) (h3w : t0 + 1000 < t3)
    (hs1 : sessionLimiterStep 1000 2 [] (some "k") t0 = (d1, s1))
    (hs2 : sessionLimiterStep 1000 2 s1 (some "k") t1 = (d2, s2))
    (hs3 : sessionLimiterStep 1000 2 s2 (some "k") t2 = (d3, s3))
    (hd4 : (sessionLimiterStep 1000 2 s3 (some "k") t3).1 = d4) :
    (d1 = LimiterDecision.allow ∧ d2 = LimiterDecision.allow ∧
     d3 = LimiterDecision.reject ((t0 + 1000 - t2 + 999) / 1000) ∧
     d4 = LimiterDecision.allow) ∧
    (∀ (w mx : Nat) (sessions : List (String × SessionLimitEntry)) (sid : String) (now : Nat),
      (∃ r, (sessionLimiterStep w mx sessions (some sid) now).1 = LimiterDecision.reject r) ↔
      (∃ entry, mapLookup sessions sid = some entry ∧ now ≤ entry.resetTime ∧
        mx ≤ entry.count)) := by
  have e1 : sessionLimiterStep 1000 2 [] (some "k") t0 =
      (LimiterDecision.allow, [("k", ⟨1, t0 + 1000⟩)]) := rfl
  rw [e1] at hs1
  injection hs1 with hd1 hst1
  subst hd1
  subst hst1
  have e2 : sessionLimiterStep 1000 2 [("k", ⟨1, t0 + 1000⟩)] (some "k") t1 =
      (LimiterDecision.allow, [("k", ⟨2, t0 + 1000⟩)]) := by
    have hlk : mapLookup [("k", (⟨1, t0 + 1000⟩ : SessionLimitEntry))] "k" =
        some ⟨1, t0 + 1000⟩ := rfl
    simp only [sessionLimiterStep, hlk]
    rw [if_neg (by omega : ¬ t0 + 1000 < t1)]
    rw [if_neg (by omega : ¬ (2 : Nat) ≤ 1)]
    rfl
  rw [e2] at hs2
  injection hs2 with hd2 hst2
  subst hd2
  subst hst2
  have e3 : sessionLimiterStep 1000 2 [("k", ⟨2, t0 + 1000⟩)] (some "k") t2 =
      (LimiterDecision.reject ((t0 + 1000 - t2 + 999) / 1000), [("k", ⟨2, t0 + 1000⟩)]) := by
    have hlk : mapLookup [("k", (⟨2, t0 + 1000⟩ : SessionLimitEntry))] "k" =
        some ⟨2, t0 + 1000⟩ := rfl
    simp only [sessionLimiterStep, hlk]
    rw [if_neg (by omega : ¬ t0 + 1000 < t2)]
    rw [if_pos (by omega : (2 : Nat) ≤ 2)]
  rw [e3] at hs3
  injection hs3 with hd3 hst3
  subst hd3
  subst hst3
  have e4 : (sessionLimiterStep 1000 2 [("k", ⟨2, t0 + 1000⟩)] (some "k") t3).1 =
      LimiterDecision.allow := by
    have hlk : mapLookup [("k", (⟨2, t0 + 1000⟩ : SessionLimitEntry))] "k" =
        some ⟨2, t0 + 1000⟩ := rfl
    simp only [sessionLimiterStep, hlk]
    rw [if_pos (by omega : t0 + 1000 < t3)]
  rw [e4] at hd4
  subst hd4
  refine ⟨⟨rfl, rfl, rfl, rfl⟩, ?_⟩
  intro w mx sessions sid now
  constructor
  · rintro ⟨r, hr⟩
    cases hlk : mapLookup sessions sid with
    | none =>
        simp only [sessionLimiterStep, hlk] at hr
        simp at hr
    | some entry =>
        simp only [sessionLimiterStep, hlk] at hr
        by_cases hexp : entry.resetTime < now
        · rw [if_pos hexp] at hr
          simp at hr
        · rw [if_neg hexp] at hr
          by_cases hcnt : mx ≤ entry.count
          · exact ⟨entry, rfl, by omega, hcnt⟩
          · rw [if_neg hcnt] at hr
            simp at hr
  · rintro ⟨entry, hlkE, hnow, hcnt⟩
    refine ⟨(entry.resetTime - now + 999) / 1000, ?_⟩
    simp only [sessionLimiterStep, hlkE]
    rw [if_neg (by omega : ¬ entry.resetTime < now), if_pos hcnt]

/-- Witness for C9: the scenario at concrete times 0, 500, 600, 1001. -/
theorem sessionLimiter_max2_scenario_witness :
    (500 : Nat) ≤ 0 + 1000 ∧ (600 : Nat) ≤ 0 + 1000 ∧ (0 : Nat) + 1000 < 1001 ∧
    ((LimiterDecision.allow = LimiterDecision.allow ∧
      LimiterDecision.allow = LimiterDecision.allow ∧
      LimiterDecision.reject ((0 + 1000 - 600 + 999) / 1000) =
        LimiterDecision.reject ((0 + 1000 - 600 + 999) / 1000) ∧
      LimiterDecision.allow = LimiterDecision.allow) ∧
     (∀ (w mx : Nat) (sessions : List (String × SessionLimitEntry)) (sid : String) (now : Nat),
       (∃ r, (sessionLimiterStep w mx sessions (some sid) now).1 = LimiterDecision.reject r) ↔
       (∃ entry, mapLookup sessions sid = some entry ∧ now ≤ entry.resetTime ∧
         mx ≤ entry.count))) :=
  ⟨by decide, by decide, by decide,
    sessionLimiter_max2_scenario 0 500 600 1001
      LimiterDecision.allow LimiterDecision.allow
      (LimiterDecision.reject ((0 + 1000 - 600 + 999) / 1000)) LimiterDecision.allow
      [("k", ⟨1, 0 + 1000⟩)] [("k", ⟨2, 0 + 1000⟩)] [("k", ⟨2, 0 + 1000⟩)]
      (by decide) (by decide) (by decide) rfl rfl rfl rfl⟩

end ChatBot
